import Mathlib

/-!
Verification development for the smooth-pursuit experiment code base.

We shallowly embed the trajectory and stimulus update engine
(src/classes/experiment/trajectory.py, src/classes/experiment/stimulus.py),
the visual-angle conversion helpers (src/classes/utilities/utilities.py)
and the per-trial frame loop and duration computation
(src/classes/experiment/experiment_section.py) into Lean, and prove or
refute the specified properties about them.

Floating-point arithmetic of the source is modelled by exact real
arithmetic (`ℝ`); clock readings in the frame loop are modelled by `ℚ`
so that the loop condition is decidable; Python runtime type checks in
the trajectory constructors are modelled by a small `PyVal` value type
together with `Except`-valued constructors.
-/

namespace SPE

/-- Mathematical model of Python `math.radians`: degrees to radians. -/
noncomputable def radians (x : ℝ) : ℝ := x * (Real.pi / 180)

/-- Mathematical model of Python `math.degrees`: radians to degrees. -/
noncomputable def degrees (x : ℝ) : ℝ := x * (180 / Real.pi)

/-- Mathematical model of Python `math.atan2 y x` on real numbers
(no signed zeros, so `atan2 0 0 = 0` as in CPython). -/
noncomputable def atan2 (y x : ℝ) : ℝ :=
  if 0 < x then Real.arctan (y / x)
  else if x < 0 ∧ 0 ≤ y then Real.arctan (y / x) + Real.pi
  else if x < 0 ∧ y < 0 then Real.arctan (y / x) - Real.pi
  else if 0 < y then Real.pi / 2
  else if y < 0 then -(Real.pi / 2)
  else 0

/-- Monitor geometry record (`settings["monitor"]`): viewing distance,
physical screen height, and pixel resolution `(x, y)`. -/
structure Monitor where
  distance : ℝ
  height : ℝ
  resolution : ℝ × ℝ

/-- Embedding of `Utilities.px_to_deg` from src/classes/utilities/utilities.py. -/
noncomputable def px_to_deg (px : ℝ) (monitor : Monitor) : ℝ :=
  degrees (atan2 (0.5 * monitor.height) monitor.distance) / (0.5 * monitor.resolution.2) * px

/-- Embedding of `Utilities.deg_to_px` from src/classes/utilities/utilities.py. -/
noncomputable def deg_to_px (deg : ℝ) (monitor : Monitor) : ℝ :=
  deg / degrees (atan2 (0.5 * monitor.height) monitor.distance) * (0.5 * monitor.resolution.2)

/-- Trajectory data (src/classes/experiment/trajectory.py).  The linear
variants store `distance_px_halfed = distance_px / 2` exactly as the
Python constructors do; the circular variant stores the raw radius
(the constructor converts it with `px_to_deg` and then immediately
overwrites the result with the raw value). -/
inductive Trajectory where
  | horizontal (distance_px_halfed : ℝ) (direction : String)
  | vertical (distance_px_halfed : ℝ) (direction : String)
  | diagonal (distance_px_halfed : ℝ) (direction : String)
  | circular (radius : ℝ) (direction : String) (start : ℝ) (monitor : Monitor)

/-- Embedding of the `update_position` methods of the four trajectory
classes.  The clockwise circular branch reproduces the final values of
the source (the dead first assignment to `x` and the debug prints have
no effect on the returned value). -/
noncomputable def Trajectory.update_position :
    Trajectory → ℝ × ℝ → ℝ → ℝ → ℝ × ℝ
  | .horizontal distance_px_halfed direction, current_position, time_step, speed =>
      if direction = "left" then
        ((-speed * time_step) + distance_px_halfed, current_position.2)
      else
        (speed * time_step - distance_px_halfed, current_position.2)
  | .vertical distance_px_halfed direction, current_position, time_step, speed =>
      if direction = "up" then
        (current_position.1, speed * time_step - distance_px_halfed)
      else
        (current_position.1, (-speed * time_step) + distance_px_halfed)
  | .diagonal distance_px_halfed direction, _current_position, time_step, speed =>
      if direction = "up_right" then
        (speed * time_step - distance_px_halfed, speed * time_step - distance_px_halfed)
      else if direction = "up_left" then
        ((-speed * time_step) + distance_px_halfed, speed * time_step - distance_px_halfed)
      else if direction = "down_right" then
        (speed * time_step - distance_px_halfed, (-speed * time_step) + distance_px_halfed)
      else
        ((-speed * time_step) + distance_px_halfed, (-speed * time_step) + distance_px_halfed)
  | .circular radius direction start monitor, _current_position, time_step, speed =>
      if direction = "clockwise" then
        (-radius * Real.cos (radians (time_step * deg_to_px speed monitor - start)),
         radius * Real.sin (radians (time_step * deg_to_px speed monitor - start)))
      else
        (deg_to_px (radius * Real.cos (radians (time_step * speed - start))) monitor,
         deg_to_px (radius * Real.sin (radians (time_step * speed - start))) monitor)

/-- Embedding of `Trajectory.update_orientation`
(src/classes/experiment/trajectory.py, lines 12-15). -/
noncomputable def Trajectory.update_orientation
    (t : Trajectory) (current_position : ℝ × ℝ) (time_step speed : ℝ) : ℝ :=
  let next_position := t.update_position current_position time_step speed
  degrees (-1 * radians ((180 / Real.pi) *
    (atan2 (next_position.2 - current_position.2) (next_position.1 - current_position.1))))

/-- Mutable state of a `MovingCircle` (the `pos` and `ori` of its drawable target). -/
structure MovingCircleState where
  pos : ℝ × ℝ
  ori : ℝ

/-- Embedding of `MovingCircle.update` (src/classes/experiment/stimulus.py,
lines 65-71): the position is updated first, then the orientation is
recomputed from the already-updated position, and the new position is
returned. -/
noncomputable def MovingCircle.update (trajectory : Trajectory) (speed : ℝ)
    (current_time : ℝ) (s : MovingCircleState) : MovingCircleState × (ℝ × ℝ) :=
  let p := trajectory.update_position s.pos current_time speed
  let o := trajectory.update_orientation p current_time speed
  (⟨p, o⟩, p)

/-- Embedding of `JumpingCircle.update` (src/classes/experiment/stimulus.py,
lines 88-95).  `update_frequency = none` models Python `None` (never
update); otherwise the parent update runs exactly when
`current_frame % k == 0 or current_frame == 1 or final_update`. -/
noncomputable def JumpingCircle.update (trajectory : Trajectory) (speed : ℝ)
    (update_frequency : Option ℕ) (current_frame : ℕ) (final_update : Bool)
    (current_time : ℝ) (s : MovingCircleState) : MovingCircleState × (ℝ × ℝ) :=
  match update_frequency with
  | none => (s, s.pos)
  | some k =>
      if current_frame % k = 0 ∨ current_frame = 1 ∨ final_update = true then
        let s1 := (MovingCircle.update trajectory speed current_time s).1
        (s1, s1.pos)
      else (s, s.pos)

/-- Embedding of the visibility (re)sampling loop shared by
`SwarmStimulus.__init__` and `SwarmStimulus.update`
(src/classes/experiment/stimulus.py): all opacities are reset to 0 and
then, for `i in range(n_active)`, one index `j` drawn by
`numpy.random.choice(range(n))` is switched on.  The successive draws
(one per loop iteration, each an independent call to `choice`) are made
explicit as the list `draws`. -/
def SwarmStimulus.resample (n n_active : ℕ) (draws : List ℕ) : List Bool :=
  (List.range n_active).foldl
    (fun opacities i => opacities.set (draws.getD i 0) true)
    (List.replicate n false)

/-- Embedding of `SwarmStimulus.update` (src/classes/experiment/stimulus.py,
lines 267-276).  The method reads only `current_frame` from the params
dict; `final_update` is received (the frame loop always passes it) but
never read. -/
def SwarmStimulus.update (n n_active : ℕ) (update_frequency : Option ℕ)
    (current_frame : ℕ) (final_update : Bool) (draws : List ℕ)
    (opacities : List Bool) : List Bool :=
  match update_frequency with
  | none => opacities
  | some k =>
      if current_frame % k = 0 then SwarmStimulus.resample n n_active draws
      else opacities

/-- Mutable state of a `BackAndForthArray` (the `fieldPos`, `fieldSize`
and single-element `xys` of its `ElementArrayStim`, plus the `back` toggle). -/
structure BackAndForthArrayState where
  fieldPos : ℝ × ℝ
  fieldSize : ℝ × ℝ
  xys : ℝ × ℝ
  back : Bool

/-- Embedding of `BackAndForthArray.update_xys`
(src/classes/experiment/stimulus.py): the back/forth offsets are chosen
from the trajectory kind and direction (tangent-based for circular
trajectories), and the `back` toggle alternates. -/
noncomputable def BackAndForthArray.update_xys (trajectory : Trajectory)
    (s : BackAndForthArrayState) : BackAndForthArrayState :=
  let bf : (ℝ × ℝ) × (ℝ × ℝ) :=
    match trajectory with
    | .horizontal _ _ =>
        ((-s.fieldSize.1, 0), (s.fieldSize.1, 0))
    | .vertical _ _ =>
        ((0, -s.fieldSize.2), (0, s.fieldSize.2))
    | .diagonal _ direction =>
        if direction = "up_right" then
          ((-s.fieldSize.1, -s.fieldSize.2), (s.fieldSize.1, s.fieldSize.2))
        else if direction = "up_left" then
          ((s.fieldSize.1, -s.fieldSize.2), (-s.fieldSize.1, s.fieldSize.2))
        else if direction = "down_right" then
          ((-s.fieldSize.1, s.fieldSize.2), (s.fieldSize.1, -s.fieldSize.2))
        else
          ((s.fieldSize.1, s.fieldSize.2), (-s.fieldSize.1, -s.fieldSize.2))
    | .circular _ _ _ _ =>
        let deg := degrees (atan2 (s.fieldPos.2 - 0) (s.fieldPos.1 - 0))
        let tangent_angle := deg + 90
        ((-s.fieldSize.1 * Real.cos (radians tangent_angle),
          -s.fieldSize.2 * Real.sin (radians tangent_angle)),
         (s.fieldSize.1 * Real.cos (radians tangent_angle),
          -s.fieldSize.2 * Real.sin (radians tangent_angle)))
  if s.back then { s with xys := bf.1, back := false }
  else { s with xys := bf.2, back := true }

/-- Embedding of `BackAndForthArray.update` (src/classes/experiment/stimulus.py,
lines 212-223).  The field position moves along the trajectory on every
call; only the `update_xys` recomputation is gated, by
`current_frame % k == 0 or current_frame == 1`.  `final_update` is
received but never read. -/
noncomputable def BackAndForthArray.update (trajectory : Trajectory) (speed : ℝ)
    (update_frequency : Option ℕ) (current_frame : ℕ) (final_update : Bool)
    (current_time : ℝ) (s : BackAndForthArrayState) :
    BackAndForthArrayState × (ℝ × ℝ) :=
  let s1 := { s with fieldPos := trajectory.update_position s.fieldPos current_time speed }
  let s2 :=
    match update_frequency with
    | none => s1
    | some k =>
        if current_frame % k = 0 ∨ current_frame = 1 then
          BackAndForthArray.update_xys trajectory s1
        else s1
  (s2, (s2.fieldPos.1 - s2.xys.1, s2.fieldPos.2 - s2.xys.2))

/-- Embedding of the final update issued after the timing loop of
`SPTrialSection.move_target` exits (src/classes/experiment/experiment_section.py,
lines 339-343): one stimulus update with `final_update = True`, whose
`current_time` is a fresh clock reading plus the time offset. -/
def finalUpdate {σ P : Type} (upd : ℕ → ℚ → Bool → σ → σ × P) (off : ℚ)
    (clock : ℕ → ℚ) (i frame : ℕ) (s : σ) : σ × P :=
  upd frame (clock (i + 1) + off) true s

/-- Embedding of the timing loop of `SPTrialSection.move_target`
(src/classes/experiment/experiment_section.py, lines 308-347).  The trial
clock is modelled by `clock : ℕ → ℚ` giving the result of the `i`-th
`getTime()` call; each loop iteration consumes three readings (loop
condition, params `current_time`, logged `trial_time`) and the final
update consumes one more.  `upd` abstracts `self.stimulus.update(params)`
(the stimulus receives the frame counter, the offset time and the final
flag and returns its new state and drawn position).  Returned are the
accumulated rows `(trial_time, position)` — appended only inside the
loop — together with the stimulus state and position after the single
final update.  The fuel argument bounds the number of iterations; with
fuel exhausted the final update is issued just as on normal exit. -/
def moveTargetAux {σ P : Type} (req_sec off : ℚ) (clock : ℕ → ℚ)
    (upd : ℕ → ℚ → Bool → σ → σ × P) :
    ℕ → ℕ → ℕ → σ → List (ℚ × P) × σ × P
  | 0, i, frame, s =>
      let fin := finalUpdate upd off clock i frame s
      ([], fin.1, fin.2)
  | fuel + 1, i, frame, s =>
      if clock i < req_sec then
        let u := upd (frame + 1) (clock (i + 1) + off) false s
        let row : ℚ × P := (clock (i + 2), u.2)
        let rest := moveTargetAux req_sec off clock upd fuel (i + 3) (frame + 1) u.1
        (row :: rest.1, rest.2)
      else
        let fin := finalUpdate upd off clock i frame s
        ([], fin.1, fin.2)

/-- Embedding of `SPTrialSection.move_target`: the loop starting with
call index 0 and frame counter 0. -/
def move_target {σ P : Type} (req_sec off : ℚ) (clock : ℕ → ℚ)
    (upd : ℕ → ℚ → Bool → σ → σ × P) (fuel : ℕ) (s : σ) :
    List (ℚ × P) × σ × P :=
  moveTargetAux req_sec off clock upd fuel 0 0 s

/-- Instrumented companion of `moveTargetAux` recording every stimulus
update call issued by the loop as a pair (final flag, returned position),
in order. -/
def moveTargetCallsAux {σ P : Type} (req_sec off : ℚ) (clock : ℕ → ℚ)
    (upd : ℕ → ℚ → Bool → σ → σ × P) :
    ℕ → ℕ → ℕ → σ → List (Bool × P)
  | 0, i, frame, s =>
      [(true, (finalUpdate upd off clock i frame s).2)]
  | fuel + 1, i, frame, s =>
      if clock i < req_sec then
        let u := upd (frame + 1) (clock (i + 1) + off) false s
        (false, u.2) :: moveTargetCallsAux req_sec off clock upd fuel (i + 3) (frame + 1) u.1
      else
        [(true, (finalUpdate upd off clock i frame s).2)]

/-- Embedding of the required-duration computation at the top of
`SPTrialSection.initialize_stimulus`
(src/classes/experiment/experiment_section.py, lines 80-95).
`circular_trial` models the test `"cir" in self.data["target_trajectory"]`;
`moving_distance_cfg` is `settings["stimuli"]["targets"]["moving_distance"]`
(in visual angle) and `max_seconds` the configured cap.  For non-circular
trials the result is `moving_distance / speed_px` clamped to
`max_seconds`; the circular branch overwrites it with
`time_per_rotation_sec * (360 / distance_per_rotation_deg)`. -/
noncomputable def req_sec_of_init_stimulus (target_speed : ℝ)
    (circular_trial : Bool) (moving_distance_cfg max_seconds : ℝ)
    (monitor : Monitor) : ℝ :=
  let speed_px := deg_to_px target_speed monitor
  let moving_distance := deg_to_px moving_distance_cfg monitor
  let req_sec := moving_distance / speed_px
  let req_sec := if req_sec > max_seconds then max_seconds else req_sec
  if circular_trial then
    let circumference := 2 * Real.pi * monitor.distance
    let distance_per_rotation_deg := degrees circumference / monitor.distance
    let time_per_rotation_sec := 360 / target_speed
    time_per_rotation_sec * (360 / distance_per_rotation_deg)
  else req_sec

/-- Python runtime values, as far as the trajectory constructors
inspect them: ints, floats, strings, dicts (here only the key set
matters) and `None`. -/
inductive PyVal where
  | int (n : ℤ)
  | float (q : ℚ)
  | str (s : String)
  | dict (keys : List String)
  | pynone
deriving DecidableEq

/-- Python test `isinstance(x, float) or isinstance(x, int)`. -/
def PyVal.isNumeric : PyVal → Bool
  | .int _ => true
  | .float _ => true
  | _ => false

/-- Numeric value of a `PyVal` already known to be numeric. -/
def PyVal.toNum : PyVal → ℚ
  | .int n => (n : ℚ)
  | .float q => q
  | _ => 0

/-- Python test `isinstance(x, dict)`. -/
def PyVal.isDict : PyVal → Bool
  | .dict _ => true
  | _ => false

/-- Python test `key in monitor` on a dict. -/
def PyVal.hasKey : PyVal → String → Bool
  | .dict keys, key => keys.contains key
  | _, _ => false

/-- A fully constructed `HorizontalTrajectory` (also standing in for the
identically validated `VerticalTrajectory` and `DiagonalTrajectory`). -/
structure LinearTrajectoryObj where
  distance_px_halfed : ℚ
  direction : PyVal

/-- Embedding of `HorizontalTrajectory.__init__`
(src/classes/experiment/trajectory.py, lines 17-25): validation runs
before any field is assigned, so an object exists only if every check
passes. -/
def HorizontalTrajectory.init (distance_px direction : PyVal) :
    Except String LinearTrajectoryObj :=
  if distance_px.isNumeric = false then
    .error "distance_px must be a int or float"
  else if direction ∉ [PyVal.str "left", PyVal.str "right"] then
    .error "direction must be left or right"
  else
    .ok ⟨distance_px.toNum / 2, direction⟩

/-- Embedding of `VerticalTrajectory.__init__`
(src/classes/experiment/trajectory.py). -/
def VerticalTrajectory.init (distance_px direction : PyVal) :
    Except String LinearTrajectoryObj :=
  if distance_px.isNumeric = false then
    .error "distance_px must be a int or float"
  else if direction ∉ [PyVal.str "up", PyVal.str "down"] then
    .error "direction must be up or down"
  else
    .ok ⟨distance_px.toNum / 2, direction⟩

/-- Embedding of `DiagonalTrajectory.__init__`
(src/classes/experiment/trajectory.py). -/
def DiagonalTrajectory.init (distance_px direction : PyVal) :
    Except String LinearTrajectoryObj :=
  if distance_px.isNumeric = false then
    .error "distance_px must be a int or float"
  else if direction ∉ [PyVal.str "up_right", PyVal.str "up_left",
      PyVal.str "down_right", PyVal.str "down_left"] then
    .error "direction must be up_right, up_left, down_right, or down_left"
  else
    .ok ⟨distance_px.toNum / 2, direction⟩

/-- A fully constructed `CircularTrajectory` (validation model). -/
structure CircularTrajectoryObj where
  radius : ℚ
  direction : PyVal
  start : ℚ
  monitor : PyVal

/-- Embedding of `CircularTrajectory.__init__`
(src/classes/experiment/trajectory.py, lines 69-90): radius, direction
and start are validated, then the monitor argument must be a dict
containing the keys distance, resolution and height. -/
def CircularTrajectory.init (radius direction start monitor : PyVal) :
    Except String CircularTrajectoryObj :=
  if radius.isNumeric = false then
    .error "radius_px must be a int or float"
  else if direction ∉ [PyVal.str "clockwise", PyVal.str "counterclockwise"] then
    .error "direction must be clockwise or counterclockwise"
  else if start.isNumeric = false then
    .error "start must be a int or float"
  else if monitor.isDict = false then
    .error "monitor must be a dict"
  else if monitor.hasKey "distance" = false then
    .error "monitor must contain a distance key"
  else if monitor.hasKey "resolution" = false then
    .error "monitor must contain a resolution key"
  else if monitor.hasKey "height" = false then
    .error "monitor must contain a height key"
  else
    .ok ⟨radius.toNum, direction, start.toNum, monitor⟩

/-- Concrete stimulus callback for the frame loop: a `MovingCircle` with
speed 1 on a `HorizontalTrajectory(distance_px=0, direction="right")`
(as `move_target` passes it the current frame, offset clock time and
final flag; `MovingCircle.update` reads only the time). -/
noncomputable def movingCircleUpd :
    ℕ → ℚ → Bool → MovingCircleState → MovingCircleState × (ℝ × ℝ) :=
  fun _current_frame current_time _final_update s =>
    MovingCircle.update (.horizontal 0 "right") 1 (current_time : ℝ) s

end SPE

/-- Claim C4: for a `JumpingCircle` with `update_frequency = k` (`k` positive),
an update call whose frame index is neither 1 nor a multiple of `k` and
whose final flag is unset leaves the target state and position
unchanged, and a final-flagged update puts the returned position exactly
at the trajectory position for the given time. -/
theorem jumping_circle_gate (trajectory : SPE.Trajectory) (speed : ℝ)
    (k current_frame : ℕ) (final_update : Bool) (current_time : ℝ)
    (s : SPE.MovingCircleState) (hk : 0 < k) :
    (¬ current_frame % k = 0 → current_frame ≠ 1 → final_update = false →
      SPE.JumpingCircle.update trajectory speed (some k) current_frame
        final_update current_time s = (s, s.pos))
    ∧ (final_update = true →
      (SPE.JumpingCircle.update trajectory speed (some k) current_frame
        final_update current_time s).2
        = trajectory.update_position s.pos current_time speed) := by
  constructor
  · intro h1 h2 h3
    simp [SPE.JumpingCircle.update, h1, h2, h3]
  · intro h3
    simp [SPE.JumpingCircle.update, h3, SPE.MovingCircle.update]

/-- Witness for `jumping_circle_gate` at `k = 2`, frame 3. -/
theorem jumping_circle_gate_witness :
    (SPE.JumpingCircle.update (.horizontal 0 "right") 1 (some 2) 3 false 5
      ⟨(0, 0), 0⟩ = (⟨(0, 0), 0⟩, (0, 0)))
    ∧ (SPE.JumpingCircle.update (.horizontal 0 "right") 1 (some 2) 3 true 5
      ⟨(0, 0), 0⟩).2
        = SPE.Trajectory.update_position (.horizontal 0 "right") (0, 0) 5 1 :=
  ⟨(jumping_circle_gate (.horizontal 0 "right") 1 2 3 false 5 ⟨(0, 0), 0⟩
      (by norm_num)).1 (by decide) (by decide) rfl,
   (jumping_circle_gate (.horizontal 0 "right") 1 2 3 true 5 ⟨(0, 0), 0⟩
      (by norm_num)).2 rfl⟩

/-- Counterexample for claim C3: at frame index 1 with `update_frequency = 2` and
`is_final = false` the claimed gate (`frame == 1` fires) predicts a
swarm resampling, but `SwarmStimulus.update` leaves the opacities
unchanged even though the resampling it would have performed changes
them. -/
theorem swarm_gate_counterexample :
    SPE.SwarmStimulus.update 2 1 (some 2) 1 false [1] [true, false] = [true, false]
    ∧ SPE.SwarmStimulus.resample 2 1 [1] = [false, true]
    ∧ ([true, false] : List Bool) ≠ [false, true] := by
  decide

/-- Auxiliary: `update_xys` only rewrites the `xys` offsets and the
`back` toggle; the field position is untouched. -/
theorem update_xys_preserves_fieldPos (trajectory : SPE.Trajectory)
    (s : SPE.BackAndForthArrayState) :
    (SPE.BackAndForthArray.update_xys trajectory s).fieldPos = s.fieldPos := by
  unfold SPE.BackAndForthArray.update_xys
  by_cases hb : s.back <;> simp [hb]

/-- Claim C3 as amended: the swarm resampling fires exactly when
`frame_index % update_frequency == 0` — not at frame 1 and not on final
updates (the final flag is ignored); for the back-and-forth array the
offset recomputation `update_xys` fires exactly when
`frame_index == 1` or `frame_index % update_frequency == 0` (again
ignoring the final flag) and is applied to the state whose field
position has already been moved, while the array field position itself
is recomputed from the trajectory on every update call, gated or not. -/
theorem swarm_and_array_gates :
    (∀ (n n_active k current_frame : ℕ) (final_update : Bool)
      (draws : List ℕ) (opacities : List Bool),
      ¬ current_frame % k = 0 →
      SPE.SwarmStimulus.update n n_active (some k) current_frame final_update
        draws opacities = opacities)
    ∧ (∀ (n n_active k current_frame : ℕ) (final_update : Bool)
      (draws : List ℕ) (opacities : List Bool),
      current_frame % k = 0 →
      SPE.SwarmStimulus.update n n_active (some k) current_frame final_update
        draws opacities = SPE.SwarmStimulus.resample n n_active draws)
    ∧ (∀ (trajectory : SPE.Trajectory) (speed : ℝ) (k current_frame : ℕ)
      (final_update : Bool) (current_time : ℝ) (s : SPE.BackAndForthArrayState),
      ¬ (current_frame % k = 0 ∨ current_frame = 1) →
      (SPE.BackAndForthArray.update trajectory speed (some k) current_frame
        final_update current_time s).1.xys = s.xys
      ∧ (SPE.BackAndForthArray.update trajectory speed (some k) current_frame
        final_update current_time s).1.back = s.back
      ∧ (SPE.BackAndForthArray.update trajectory speed (some k) current_frame
        final_update current_time s).1.fieldPos
          = trajectory.update_position s.fieldPos current_time speed)
    ∧ (∀ (trajectory : SPE.Trajectory) (speed : ℝ) (k current_frame : ℕ)
      (final_update : Bool) (current_time : ℝ) (s : SPE.BackAndForthArrayState),
      current_frame % k = 0 ∨ current_frame = 1 →
      (SPE.BackAndForthArray.update trajectory speed (some k) current_frame
        final_update current_time s).1
        = SPE.BackAndForthArray.update_xys trajectory
            { s with fieldPos :=
                trajectory.update_position s.fieldPos current_time speed })
    ∧ (∀ (trajectory : SPE.Trajectory) (speed : ℝ) (k current_frame : ℕ)
      (final_update : Bool) (current_time : ℝ) (s : SPE.BackAndForthArrayState),
      (SPE.BackAndForthArray.update trajectory speed (some k) current_frame
        final_update current_time s).1.fieldPos
        = trajectory.update_position s.fieldPos current_time speed) := by
  refine ⟨?_, ?_, ?_, ?_, ?_⟩
  · intro n n_active k current_frame final_update draws opacities h
    simp [SPE.SwarmStimulus.update, h]
  · intro n n_active k current_frame final_update draws opacities h
    simp [SPE.SwarmStimulus.update, h]
  · intro trajectory speed k current_frame final_update current_time s h
    refine ⟨?_, ?_, ?_⟩ <;> simp [SPE.BackAndForthArray.update, h]
  · intro trajectory speed k current_frame final_update current_time s h
    simp [SPE.BackAndForthArray.update, h]
  · intro trajectory speed k current_frame final_update current_time s
    by_cases h : current_frame % k = 0 ∨ current_frame = 1
    · simp [SPE.BackAndForthArray.update, h, update_xys_preserves_fieldPos]
    · simp [SPE.BackAndForthArray.update, h]

/-- Witness for `swarm_and_array_gates` at `k = 2`: frames 3 (off gate)
and 2 (on gate). -/
theorem swarm_and_array_gates_witness :
    SPE.SwarmStimulus.update 2 1 (some 2) 3 true [1] [true, false] = [true, false]
    ∧ SPE.SwarmStimulus.update 2 1 (some 2) 4 true [1] [true, false]
        = SPE.SwarmStimulus.resample 2 1 [1]
    ∧ (SPE.BackAndForthArray.update (.horizontal 0 "right") 1 (some 2) 3 true 5
        ⟨(0, 0), (1, 1), (0, 0), true⟩).1.xys = (0, 0)
    ∧ (SPE.BackAndForthArray.update (.horizontal 0 "right") 1 (some 2) 2 true 5
        ⟨(0, 0), (1, 1), (0, 0), true⟩).1
        = SPE.BackAndForthArray.update_xys (.horizontal 0 "right")
            ⟨SPE.Trajectory.update_position (.horizontal 0 "right") (0, 0) 5 1,
             (1, 1), (0, 0), true⟩
    ∧ (SPE.BackAndForthArray.update (.horizontal 0 "right") 1 (some 2) 2 true 5
        ⟨(0, 0), (1, 1), (0, 0), true⟩).1.fieldPos
        = SPE.Trajectory.update_position (.horizontal 0 "right") (0, 0) 5 1 :=
  ⟨swarm_and_array_gates.1 2 1 2 3 true [1] [true, false] (by decide),
   swarm_and_array_gates.2.1 2 1 2 4 true [1] [true, false] (by decide),
   (swarm_and_array_gates.2.2.1 (.horizontal 0 "right") 1 2 3 true 5
      ⟨(0, 0), (1, 1), (0, 0), true⟩ (by decide)).1,
   swarm_and_array_gates.2.2.2.1 (.horizontal 0 "right") 1 2 2 true 5
      ⟨(0, 0), (1, 1), (0, 0), true⟩ (by decide),
   swarm_and_array_gates.2.2.2.2 (.horizontal 0 "right") 1 2 2 true 5
      ⟨(0, 0), (1, 1), (0, 0), true⟩⟩

/-- Claim C5, evaluated at a failing input: evaluation of the swarm visibility loop at a possible outcome of
its random draws (`numpy.random.choice(range(2))` returning 0 twice):
with `n = 2` and `n_active = 2` only one element ends up visible, not
`n_active`. -/
theorem swarm_resample_duplicate_draw :
    (SPE.SwarmStimulus.resample 2 2 [0, 0]).count true = 1 ∧ (1 : ℕ) ≠ 2 := by
  decide

/-- Claim C2 as amended: the frame loop issues exactly one final-flagged update,
as the last stimulus update of the trial, and its position is the one
returned (and drawn) after the loop; the row log contains exactly the
positions of the non-final in-loop updates, so the position of the
final update is not appended to the rows. -/
theorem move_target_call_structure {σ P : Type} (req_sec off : ℚ)
    (clock : ℕ → ℚ) (upd : ℕ → ℚ → Bool → σ → σ × P) (fuel i frame : ℕ)
    (s : σ) :
    SPE.moveTargetCallsAux req_sec off clock upd fuel i frame s
      = (SPE.moveTargetAux req_sec off clock upd fuel i frame s).1.map
          (fun r => (false, r.2))
        ++ [(true, (SPE.moveTargetAux req_sec off clock upd fuel i frame s).2.2)] := by
  induction fuel generalizing i frame s with
  | zero => simp [SPE.moveTargetCallsAux, SPE.moveTargetAux]
  | succ fuel ih =>
      by_cases h : clock i < req_sec
      · simp [SPE.moveTargetCallsAux, SPE.moveTargetAux, h, ih]
      · simp [SPE.moveTargetCallsAux, SPE.moveTargetAux, h]

/-- Claim C9: each trajectory constructor returns a construction-time error —
and hence no object at all — whenever the direction is unrecognized,
the distance/radius is not numeric, or (for circular) the monitor is
not a dict containing the distance, resolution and height keys. -/
theorem trajectory_constructors_fail_fast :
    (∀ distance_px direction : SPE.PyVal,
      distance_px.isNumeric = false
        ∨ direction ∉ [SPE.PyVal.str "left", SPE.PyVal.str "right"] →
      ∃ msg, SPE.HorizontalTrajectory.init distance_px direction = .error msg)
    ∧ (∀ distance_px direction : SPE.PyVal,
      distance_px.isNumeric = false
        ∨ direction ∉ [SPE.PyVal.str "up", SPE.PyVal.str "down"] →
      ∃ msg, SPE.VerticalTrajectory.init distance_px direction = .error msg)
    ∧ (∀ distance_px direction : SPE.PyVal,
      distance_px.isNumeric = false
        ∨ direction ∉ [SPE.PyVal.str "up_right", SPE.PyVal.str "up_left",
            SPE.PyVal.str "down_right", SPE.PyVal.str "down_left"] →
      ∃ msg, SPE.DiagonalTrajectory.init distance_px direction = .error msg)
    ∧ (∀ radius direction start monitor : SPE.PyVal,
      radius.isNumeric = false
        ∨ direction ∉ [SPE.PyVal.str "clockwise", SPE.PyVal.str "counterclockwise"]
        ∨ (monitor.isDict && monitor.hasKey "distance" && monitor.hasKey "resolution"
            && monitor.hasKey "height") = false →
      ∃ msg, SPE.CircularTrajectory.init radius direction start monitor
        = .error msg) := by
  refine ⟨?_, ?_, ?_, ?_⟩
  · intro distance_px direction h
    by_cases h1 : distance_px.isNumeric = false
    · exact ⟨"distance_px must be a int or float",
        by simp [SPE.HorizontalTrajectory.init, h1]⟩
    · have h2 := h.resolve_left h1
      exact ⟨"direction must be left or right",
        by simp [SPE.HorizontalTrajectory.init, h1, h2]⟩
  · intro distance_px direction h
    by_cases h1 : distance_px.isNumeric = false
    · exact ⟨"distance_px must be a int or float",
        by simp [SPE.VerticalTrajectory.init, h1]⟩
    · have h2 := h.resolve_left h1
      exact ⟨"direction must be up or down",
        by simp [SPE.VerticalTrajectory.init, h1, h2]⟩
  · intro distance_px direction h
    by_cases h1 : distance_px.isNumeric = false
    · exact ⟨"distance_px must be a int or float",
        by simp [SPE.DiagonalTrajectory.init, h1]⟩
    · have h2 := h.resolve_left h1
      exact ⟨"direction must be up_right, up_left, down_right, or down_left",
        by simp [SPE.DiagonalTrajectory.init, h1, h2]⟩
  · intro radius direction start monitor h
    by_cases h1 : radius.isNumeric = false
    · exact ⟨"radius_px must be a int or float",
        by simp [SPE.CircularTrajectory.init, h1]⟩
    by_cases h2 : direction ∉ [SPE.PyVal.str "clockwise", SPE.PyVal.str "counterclockwise"]
    · exact ⟨"direction must be clockwise or counterclockwise",
        by simp [SPE.CircularTrajectory.init, h1, h2]⟩
    have h2m : direction ∈ [SPE.PyVal.str "clockwise", SPE.PyVal.str "counterclockwise"] :=
      not_not.mp h2
    have hmon := (h.resolve_left h1).resolve_left h2
    by_cases h3 : start.isNumeric = false
    · exact ⟨"start must be a int or float",
        by simp [SPE.CircularTrajectory.init, h1, h2m, h3]⟩
    by_cases h4 : monitor.isDict = false
    · exact ⟨"monitor must be a dict",
        by simp [SPE.CircularTrajectory.init, h1, h2m, h3, h4]⟩
    by_cases h5 : monitor.hasKey "distance" = false
    · exact ⟨"monitor must contain a distance key",
        by simp [SPE.CircularTrajectory.init, h1, h2m, h3, h4, h5]⟩
    by_cases h6 : monitor.hasKey "resolution" = false
    · exact ⟨"monitor must contain a resolution key",
        by simp [SPE.CircularTrajectory.init, h1, h2m, h3, h4, h5, h6]⟩
    by_cases h7 : monitor.hasKey "height" = false
    · exact ⟨"monitor must contain a height key",
        by simp [SPE.CircularTrajectory.init, h1, h2m, h3, h4, h5, h6, h7]⟩
    simp [Bool.not_eq_false] at h4 h5 h6 h7
    simp [h4, h5, h6, h7] at hmon

/-- Witness for `trajectory_constructors_fail_fast` on concrete bad
inputs: a string distance, wrong-kind directions, and a `None` monitor. -/
theorem trajectory_constructors_fail_fast_witness :
    (∃ msg, SPE.HorizontalTrajectory.init (.str "a") (.str "left") = .error msg)
    ∧ (∃ msg, SPE.VerticalTrajectory.init (.int 4) (.str "left") = .error msg)
    ∧ (∃ msg, SPE.DiagonalTrajectory.init (.int 4) (.str "up") = .error msg)
    ∧ (∃ msg, SPE.CircularTrajectory.init (.int 4) (.str "clockwise") (.int 0)
        .pynone = .error msg) :=
  ⟨trajectory_constructors_fail_fast.1 (.str "a") (.str "left") (Or.inl (by decide)),
   trajectory_constructors_fail_fast.2.1 (.int 4) (.str "left") (Or.inr (by decide)),
   trajectory_constructors_fail_fast.2.2.1 (.int 4) (.str "up") (Or.inr (by decide)),
   trajectory_constructors_fail_fast.2.2.2 (.int 4) (.str "clockwise") (.int 0)
     .pynone (Or.inr (Or.inr (by decide)))⟩

/-- Auxiliary: `atan2` with positive second argument is `arctan` of the
quotient. -/
theorem atan2_of_pos_x (y x : ℝ) (hx : 0 < x) :
    SPE.atan2 y x = Real.arctan (y / x) := by
  unfold SPE.atan2
  rw [if_pos hx]

/-- Auxiliary: `atan2 0 0 = 0`, as in CPython without signed zeros. -/
theorem atan2_zero_zero : SPE.atan2 0 0 = 0 := by
  unfold SPE.atan2
  norm_num

/-- Claim C1, evaluated at a failing input: after `MovingCircle.update` on an upward vertical trajectory the
stored orientation is `0`, not the bearing `90` of the upward motion:
the position is updated before the orientation is recomputed and the
trajectory position depends only on time, so the recomputed movement
vector is `(0, 0)` and `atan2 0 0 = 0`. -/
theorem moving_circle_orientation_is_zero :
    (SPE.MovingCircle.update (.vertical 50 "up") 1 1 ⟨(0, 0), 0⟩).1.ori = 0
    ∧ (0 : ℝ) ≠ 90 := by
  constructor
  · simp [SPE.MovingCircle.update, SPE.Trajectory.update_orientation,
      SPE.Trajectory.update_position, SPE.atan2, SPE.radians, SPE.degrees]
  · norm_num

/-- Claim C6: for non-circular trials the required duration computed by
`initialize_stimulus` is the pixel moving distance divided by the pixel
speed, clamped from above by `max_seconds`. -/
theorem req_sec_noncircular_clamped (target_speed moving_distance_cfg max_seconds : ℝ)
    (m : SPE.Monitor) :
    SPE.req_sec_of_init_stimulus target_speed false moving_distance_cfg max_seconds m
      = min (SPE.deg_to_px moving_distance_cfg m / SPE.deg_to_px target_speed m)
          max_seconds := by
  unfold SPE.req_sec_of_init_stimulus
  rcases le_or_lt
      (SPE.deg_to_px moving_distance_cfg m / SPE.deg_to_px target_speed m)
      max_seconds with hle | hlt
  · simp [not_lt.mpr hle, min_eq_left hle]
  · simp [hlt, min_eq_right hlt.le]

/-- Claim C10: in the circular branch of `initialize_stimulus` the intermediate
quantities cancel — `degrees(2π·distance)/distance = 360` for any nonzero
monitor distance — so the duration is exactly `360 / angular_speed`,
independent of the monitor geometry. -/
theorem req_sec_circular_full_rotation (target_speed moving_distance_cfg max_seconds : ℝ)
    (m : SPE.Monitor) (hd : 0 < m.distance) :
    SPE.req_sec_of_init_stimulus target_speed true moving_distance_cfg max_seconds m
      = 360 / target_speed := by
  have hd0 : m.distance ≠ 0 := ne_of_gt hd
  have h1 : SPE.degrees (2 * Real.pi * m.distance) / m.distance = 360 := by
    unfold SPE.degrees
    field_simp
    ring
  simp only [SPE.req_sec_of_init_stimulus]
  norm_num [h1]

/-- Witness for `req_sec_circular_full_rotation` on a concrete monitor
with distance 1 and angular speed 3. -/
theorem req_sec_circular_full_rotation_witness :
    SPE.req_sec_of_init_stimulus 3 true 8 5 ⟨1, 2, (0, 90)⟩ = 360 / 3 :=
  req_sec_circular_full_rotation 3 8 5 ⟨1, 2, (0, 90)⟩ (by norm_num : (0:ℝ) < 1)

/-- Claim C8: the visual-angle conversions are mutually inverse in exact real
arithmetic, for every monitor with positive distance, height and
vertical resolution. -/
theorem deg_to_px_px_to_deg_round_trip (m : SPE.Monitor) (x : ℝ)
    (hd : 0 < m.distance) (hh : 0 < m.height) (hr : 0 < m.resolution.2) :
    SPE.deg_to_px (SPE.px_to_deg x m) m = x := by
  have hD : SPE.atan2 (0.5 * m.height) m.distance
      = Real.arctan (0.5 * m.height / m.distance) := atan2_of_pos_x _ _ hd
  have hat : Real.arctan (0.5 * m.height / m.distance) ≠ 0 := by
    rw [Ne, Real.arctan_eq_zero_iff]
    positivity
  have hF : SPE.degrees (SPE.atan2 (0.5 * m.height) m.distance) ≠ 0 := by
    rw [hD]
    unfold SPE.degrees
    have hpi : (180 : ℝ) / Real.pi ≠ 0 := by positivity
    exact mul_ne_zero hat hpi
  have hr0 : 0.5 * m.resolution.2 ≠ 0 := by positivity
  unfold SPE.deg_to_px SPE.px_to_deg
  field_simp
  ring

/-- Witness for `deg_to_px_px_to_deg_round_trip` on a concrete monitor
and the pixel value 7. -/
theorem deg_to_px_px_to_deg_round_trip_witness :
    SPE.deg_to_px (SPE.px_to_deg 7 ⟨1, 2, (0, 90)⟩) ⟨1, 2, (0, 90)⟩ = 7 :=
  deg_to_px_px_to_deg_round_trip ⟨1, 2, (0, 90)⟩ 7 (by norm_num : (0:ℝ) < 1)
    (by norm_num : (0:ℝ) < 2) (by norm_num : (0:ℝ) < 90)

/-- Auxiliary: on the concrete monitor with distance 1, height 2 and
vertical resolution 180, the half-height visual angle is 45 degrees. -/
theorem degrees_atan2_one_one : SPE.degrees (SPE.atan2 1 1) = 45 := by
  have h : SPE.atan2 (1 : ℝ) 1 = Real.arctan 1 := by
    rw [atan2_of_pos_x 1 1 (by norm_num : (0:ℝ) < 1)]
    norm_num
  rw [h, Real.arctan_one]
  unfold SPE.degrees
  field_simp
  ring

/-- Auxiliary: `deg_to_px` doubles its argument on that monitor. -/
theorem deg_to_px_monitor180 (x : ℝ) :
    SPE.deg_to_px x ⟨1, 2, (0, 180)⟩ = 2 * x := by
  unfold SPE.deg_to_px
  norm_num [degrees_atan2_one_one]
  ring

/-- Auxiliary: 180 degrees is π radians. -/
theorem radians_one_eighty : SPE.radians 180 = Real.pi := by
  unfold SPE.radians
  field_simp

/-- Auxiliary: 90 degrees is π/2 radians. -/
theorem radians_ninety : SPE.radians 90 = Real.pi / 2 := by
  unfold SPE.radians
  field_simp
  ring

/-- Claim C7: the clockwise branch of `CircularTrajectory.update_position`
applies `deg_to_px` to the angular argument before cos/sin while the
counterclockwise branch applies it to the resulting position, and the
two conventions disagree: for radius 1, a monitor with distance 1,
height 2 and vertical resolution 180, time 1, speed 90 and start 0, the
clockwise position is (1, 0) while the counterclockwise position is
(0, 2), so the clockwise position is the mirror image of the
counterclockwise one across neither axis. -/
theorem circular_cw_ccw_not_mirror :
    ∃ (radius : ℝ) (m : SPE.Monitor) (time_step speed start : ℝ),
      SPE.Trajectory.update_position (.circular radius "clockwise" start m)
          (0, 0) time_step speed
        ≠ (-(SPE.Trajectory.update_position (.circular radius "counterclockwise" start m)
              (0, 0) time_step speed).1,
           (SPE.Trajectory.update_position (.circular radius "counterclockwise" start m)
              (0, 0) time_step speed).2)
      ∧ SPE.Trajectory.update_position (.circular radius "clockwise" start m)
          (0, 0) time_step speed
        ≠ ((SPE.Trajectory.update_position (.circular radius "counterclockwise" start m)
              (0, 0) time_step speed).1,
           -(SPE.Trajectory.update_position (.circular radius "counterclockwise" start m)
              (0, 0) time_step speed).2) := by
  refine ⟨1, ⟨1, 2, (0, 180)⟩, 1, 90, 0, ?_⟩
  have hcw : SPE.Trajectory.update_position
      (.circular 1 "clockwise" 0 ⟨1, 2, (0, 180)⟩) (0, 0) 1 90 = (1, 0) := by
    simp only [SPE.Trajectory.update_position]
    rw [if_pos trivial, deg_to_px_monitor180]
    norm_num [radians_one_eighty, Real.cos_pi, Real.sin_pi]
  have hccw : SPE.Trajectory.update_position
      (.circular 1 "counterclockwise" 0 ⟨1, 2, (0, 180)⟩) (0, 0) 1 90 = (0, 2) := by
    simp only [SPE.Trajectory.update_position]
    rw [if_neg (by decide : ¬ ("counterclockwise" : String) = "clockwise")]
    norm_num [radians_ninety, Real.cos_pi_div_two, Real.sin_pi_div_two,
      deg_to_px_monitor180]
  rw [hcw, hccw]
  constructor <;> simp [Prod.ext_iff]

/-- Counterexample for claim C2: running the frame loop with required duration 1s,
clock readings 0, 1, 2, ... and a `MovingCircle` on a horizontal-right
trajectory, the returned row log holds the single in-loop position
(1, 0) while the position produced by the final (`final_update = true`)
update is (4, 0): the final update is drawn and returned but its
position is never appended to the rows, so the last returned row does
not hold the terminal position. -/
theorem move_target_final_row_not_logged :
    (SPE.move_target 1 0 (fun i => (i : ℚ)) SPE.movingCircleUpd 2
      ⟨(0, 0), 0⟩).1.map Prod.snd = [((1 : ℝ), (0 : ℝ))]
    ∧ (SPE.move_target 1 0 (fun i => (i : ℚ)) SPE.movingCircleUpd 2
      ⟨(0, 0), 0⟩).2.2 = ((4 : ℝ), (0 : ℝ))
    ∧ (((1 : ℝ), (0 : ℝ)) : ℝ × ℝ) ≠ ((4 : ℝ), (0 : ℝ)) := by
  have hs : ¬ ("right" : String) = "left" := by decide
  refine ⟨?_, ?_, by simp [Prod.ext_iff]⟩ <;>
    norm_num [hs, SPE.move_target, SPE.moveTargetAux, SPE.finalUpdate,
      SPE.movingCircleUpd, SPE.MovingCircle.update,
      SPE.Trajectory.update_position, SPE.Trajectory.update_orientation,
      SPE.atan2, SPE.radians, SPE.degrees]
